import Mathlib

/-!
Shallow embedding of `layer_edge.py`, a proxy-farming client for the
LayerEdge dashboard. The embedding models:

* the JSON values the client inspects, with Python truthiness and the
  `dict.get` access used by the source (JSON `null` parses to Python `None`,
  so a present-but-null field is indistinguishable from an absent one);
* `attempt_start_node` (one activation attempt) and `do_farm_once`
  (one liveness report), each parameterised by an environment describing
  the outcome of the external effects (signing, HTTP transport);
* the per-proxy `worker` loop as a deterministic step function over an
  oracle assigning an environment to every step, producing a trace of
  observable events (activation attempts, farming requests, sleeps);
* the `main` orchestrator reading the proxy list and spawning workers.
-/

namespace LayerEdge

/-- Hardcoded configuration from the source. -/
def WALLET_ADDRESS : String := "address"

/-- Seconds between farming attempts (`POLL_INTERVAL = 5`). -/
def POLL_INTERVAL : Nat := 5

/-- Per-request timeout in seconds (`TIMEOUT_SECS = 15`). -/
def TIMEOUT_SECS : Nat := 15

/-- JSON values as the Python `json` module delivers them. Arrays are not
modelled: no field the source reads is ever an array in the observed
protocol, and truthiness of the modelled values covers every claim. -/
inductive Json where
  | null
  | bool (b : Bool)
  | num (n : Int)
  | str (s : String)
  | obj (fields : List (String × Json))

/-- Python truthiness (`bool(v)`) of a JSON value: `None`, `False`, `0`,
the empty string and the empty dict are falsy, everything else truthy. -/
def Json.truthy : Json → Bool
  | .null => false
  | .bool b => b
  | .num n => n != 0
  | .str s => s != ""
  | .obj fs => !fs.isEmpty

/-- Python `data.get(key)` on a parsed JSON body. JSON `null` parses to
Python `None`, so a field holding `null` is returned as `none`, exactly as
an absent key. Calling `.get` on a non-dict raises `AttributeError`, which
every caller in the source catches and converts to failure: modelled as
`none` here, giving the same observable outcome. -/
def Json.get : Json → String → Option Json
  | .obj fs, k =>
    match fs.lookup k with
    | some .null => none
    | some v => some v
    | none => none
  | _, _ => none

/-- Truthiness of the result of `data.get(key)`: absent is falsy. -/
def truthyOpt : Option Json → Bool
  | none => false
  | some j => j.truthy

/-- Outcome of the `sign_message` call: a hex signature, or an exception
raised inside the signing primitive (malformed key etc.). -/
inductive SignResult where
  | ok (signature : String)
  | exn

/-- Outcome of one HTTP POST through the bound proxy. `exn` is any
transport-level exception (connection error, timeout); `ok status body`
is a completed response with the given status code, `body` being the
parsed JSON (`none` when the body is not parseable JSON). -/
inductive HttpResult where
  | exn
  | ok (status : Nat) (body : Option Json)

/-- Environment of one activation attempt: what the signing step does and
what the HTTP call would return if sent. -/
structure StartEnv where
  signResult : SignResult
  httpResult : HttpResult

/-- Request payload of an activation attempt, from the source:
`payload = {"walletAddress": WALLET_ADDRESS}` — the computed signature is
commented out and never placed in the payload. -/
def start_payload : Json :=
  .obj [("walletAddress", .str WALLET_ADDRESS)]

/-- The wire request of one activation attempt, if any is sent. When the
signing step raises, the function returns before `session.post`, so no
request reaches the network. -/
def start_request (env : StartEnv) : Option Json :=
  match env.signResult with
  | .exn => none
  | .ok _ => some start_payload

/-- One call of `attempt_start_node`. Returns the Python value the function
returns: `none` models Python `None` (failure), `some j` a non-`None`
`lastStartTime` accepted by the worker. Mirrors the source order: sign the
activation message (an exception returns `None`); POST; a transport
exception, a status other than 200, an unparseable body, or a falsy
`success` field each return `None`; otherwise return
`data.get("lastStartTime")` unchanged. -/
def attempt_start_node (env : StartEnv) : Option Json :=
  match env.signResult with
  | .exn => none
  | .ok _ =>
    match env.httpResult with
    | .exn => none
    | .ok status body =>
      if status != 200 then none
      else
        match body with
        | none => none
        | some data =>
          if !truthyOpt (data.get "success") then none
          else data.get "lastStartTime"

/-- Request payload of one farming request, from the source:
`payload = {"walletAddress": ..., "lastStartTime": last_start_time}`. -/
def farm_payload (last_start_time : Json) : Json :=
  .obj [("walletAddress", .str WALLET_ADDRESS),
        ("lastStartTime", last_start_time)]

/-- One call of `do_farm_once`: returns `True` only for a completed
response with status 200, parseable body and truthy `success` field;
a transport exception, a non-200 status, a parse failure or a falsy
`success` all return `False`. -/
def do_farm_once (env : HttpResult) : Bool :=
  match env with
  | .exn => false
  | .ok status body =>
    if status != 200 then false
    else
      match body with
      | none => false
      | some data => truthyOpt (data.get "success")

/-- Control state of the `worker` loop: retrying activation, or farming
with the `last_start_time` value obtained from the most recent successful
activation. -/
inductive WState where
  | activating
  | farming (last_start_time : Json)

/-- Observable events of one worker step: an activation attempt with its
result, a farming request recording the `lastStartTime` value it sends and
its result, and a sleep of a given number of seconds. -/
inductive Event where
  | activate (result : Option Json)
  | farm (last_start_time : Json) (result : Bool)
  | sleep (secs : Nat)

/-- Boolean test for a sleep event. -/
def Event.isSleep : Event → Bool
  | .sleep _ => true
  | _ => false

/-- Oracle: the environment the outside world supplies at step `n` of the
trace — the signing and HTTP outcome used if the step is an activation
attempt, and the HTTP outcome used if the step is a farming request. -/
def Oracle : Type := Nat → StartEnv × HttpResult

/-- One iteration of the `worker` loop, following the source exactly:

* in `activating`, call `attempt_start_node`; on `None` print, sleep
  `POLL_INTERVAL` and retry; on success enter farming with the returned
  value, with no sleep in between;
* in `farming h`, call `do_farm_once` with `h`; on success sleep
  `POLL_INTERVAL` and continue farming with the same `h`; on failure break
  out immediately — no sleep — and re-enter activation. -/
def step (o : Oracle) (s : WState) (n : Nat) : WState × List Event :=
  match s with
  | .activating =>
    match attempt_start_node (o n).1 with
    | none => (.activating, [.activate none, .sleep POLL_INTERVAL])
    | some j => (.farming j, [.activate (some j)])
  | .farming h =>
    if do_farm_once (o n).2 then
      (.farming h, [.farm h true, .sleep POLL_INTERVAL])
    else
      (.activating, [.farm h false])

/-- Worker state before step `n`; the worker starts in activation. -/
def run (o : Oracle) : Nat → WState
  | 0 => .activating
  | n + 1 => (step o (run o n) n).1

/-- Events emitted by step `n` of the worker. -/
def events (o : Oracle) (n : Nat) : List Event :=
  (step o (run o n) n).2

/-- The result of the activation attempt made at step `n`, when step `n`
is an activation step; `none` also when step `n` is a farming step. -/
def activationSuccessAt (o : Oracle) (n : Nat) : Option Json :=
  match run o n with
  | .activating => attempt_start_node (o n).1
  | .farming _ => none

/-- The `lastStartTime` value sent by the farming request at step `n`,
when step `n` is a farming step. -/
def farmsAt (o : Oracle) (n : Nat) : Option Json :=
  match run o n with
  | .activating => none
  | .farming h => some h

/-- Python `line.strip()`: remove leading and trailing whitespace. -/
def pyStrip (s : String) : String :=
  .mk (((s.data.dropWhile Char.isWhitespace).reverse.dropWhile
        Char.isWhitespace).reverse)

/-- The proxy list built by `main` from the file contents: each line is
stripped and kept only when non-empty. A missing or unreadable file
(`none`) is caught by the source and leaves the list empty. -/
def read_proxies (file : Option (List String)) : List String :=
  match file with
  | none => []
  | some ls => (ls.map pyStrip).filter (fun l => l != "")

/-- Outcome of `main`: a clean return with no workers (prints a notice,
raises nothing), or one spawned worker per proxy string. -/
inductive MainResult where
  | noProxies
  | spawned (workers : List String)

/-- The `main` orchestrator: read proxies; if the list is empty return
cleanly having spawned nothing; otherwise spawn exactly one worker task
per proxy string, in file order. -/
def main_run (file : Option (List String)) : MainResult :=
  let proxies := read_proxies file
  if proxies.isEmpty then .noProxies else .spawned proxies

/-- A concrete successful activation environment: signing works, the
server answers 200 with `success = true` and `lastStartTime = 7`. -/
def goodStart : StartEnv :=
  ⟨.ok "sig",
   .ok 200 (some (.obj [("success", .bool true), ("lastStartTime", .num 7)]))⟩

/-- A concrete successful farming response: 200, `success = true`,
`nodePoints = 5`. -/
def goodFarm : HttpResult :=
  .ok 200 (some (.obj [("success", .bool true), ("nodePoints", .num 5)]))

/-- A concrete rejected farming response: 200 with `success = false`. -/
def badFarm : HttpResult :=
  .ok 200 (some (.obj [("success", .bool false)]))

/-- Oracle in which activation always succeeds with `lastStartTime = 7`
and every farming request is rejected. -/
def oFarmFail : Oracle := fun _ => (goodStart, badFarm)

/-- Oracle in which the signing step always raises and the transport
always fails. -/
def oAllFail : Oracle := fun _ => (⟨.exn, .exn⟩, .exn)

/-- Oracle in which activation always succeeds with `lastStartTime = 7`
and every farming request is accepted. -/
def oAllGood : Oracle := fun _ => (goodStart, goodFarm)

/-- A concrete activation environment whose `lastStartTime` field holds a
string rather than a timestamp, with `success = true`. -/
def stringStart : StartEnv :=
  ⟨.ok "sig",
   .ok 200 (some (.obj [("success", .bool true),
                        ("lastStartTime", .str "oops")]))⟩

/-- Oracle whose activations return the string-valued `lastStartTime`. -/
def oStringStart : Oracle := fun _ => (stringStart, goodFarm)

/-! ### Helper lemmas shared between claims -/

/-- When every activation attempt the oracle supplies fails, the worker is
in the activation state at every step and every step consists of one
failed attempt followed by one sleep of `POLL_INTERVAL` seconds. -/
theorem run_activating_forever (o : Oracle)
    (hfail : ∀ n, attempt_start_node (o n).1 = none) (n : Nat) :
    run o n = .activating ∧
      events o n = [.activate none, .sleep POLL_INTERVAL] := by
  induction n with
  | zero =>
    refine ⟨rfl, ?_⟩
    simp [events, run, step, hfail 0]
  | succ n ih =>
    have h1 : run o (n + 1) = .activating := by
      simp [run, step, ih.1, hfail n]
    exact ⟨h1, by simp [events, step, h1, hfail (n + 1)]⟩

/-- A signing exception makes the whole activation attempt return `None`
and suppresses the HTTP request. -/
theorem sign_exn_aborts_attempt (env : StartEnv) (he : env.signResult = .exn) :
    attempt_start_node env = none ∧ start_request env = none := by
  constructor <;> simp [attempt_start_node, start_request, he]

/-! ### Claims -/

/-- C2: if every activation attempt fails, the worker performs infinitely
many activation attempts — one at every step `n`, with no upper bound —
and each step emits exactly the failed attempt followed by a single sleep
of the fixed poll interval, so consecutive attempts are separated by
exactly one fixed-length wait, with no growth. -/
theorem activation_failure_retries_forever (o : Oracle)
    (hfail : ∀ n, attempt_start_node (o n).1 = none) :
    ∀ n, run o n = .activating ∧
      events o n = [.activate none, .sleep POLL_INTERVAL] :=
  fun n => run_activating_forever o hfail n

/-- C2 witness: with the all-failing oracle, step 2 is an activation
attempt followed by one `POLL_INTERVAL` sleep. -/
theorem activation_failure_retries_forever_witness :
    run oAllFail 2 = .activating ∧
      events oAllFail 2 = [.activate none, .sleep POLL_INTERVAL] :=
  activation_failure_retries_forever oAllFail (fun _ => rfl) 2

/-- C7: an exception inside the signing step makes the activation attempt
fail as an ordinary failure (`attempt_start_node` returns `None`, nothing
propagates), and while signing keeps failing the worker keeps retrying
forever, each retry separated by the fixed backoff sleep — it never
terminates. -/
theorem signing_failure_nonfatal (o : Oracle)
    (hsign : ∀ n, (o n).1.signResult = .exn) :
    (∀ env : StartEnv, env.signResult = .exn →
       attempt_start_node env = none) ∧
    ∀ n, run o n = .activating ∧
      events o n = [.activate none, .sleep POLL_INTERVAL] := by
  refine ⟨fun env he => (sign_exn_aborts_attempt env he).1, fun n => ?_⟩
  exact run_activating_forever o
    (fun k => (sign_exn_aborts_attempt _ (hsign k)).1) n

/-- C7 witness: with the oracle whose signing always raises, the attempt
at step 0 fails and the worker is still activating at step 3. -/
theorem signing_failure_nonfatal_witness :
    attempt_start_node (oAllFail 0).1 = none ∧ run oAllFail 3 = .activating :=
  ⟨(signing_failure_nonfatal oAllFail (fun _ => rfl)).1 _ rfl,
   ((signing_failure_nonfatal oAllFail (fun _ => rfl)).2 3).1⟩

/-- C1: a farming request at step `n` (a `reportLiveness` call) can only
happen after some earlier step `m` made a successful activation attempt,
and the `lastStartTime` the farming request uses is exactly the value of
the most recent successful activation: no activation succeeds strictly
between `m` and `n`. In particular no liveness report ever precedes the
first successful activation, and no report uses a handle from an earlier
activation. -/
theorem farm_uses_latest_activation (o : Oracle) (n : Nat) (h : Json)
    (hf : farmsAt o n = some h) :
    ∃ m, m < n ∧ activationSuccessAt o m = some h ∧
      ∀ k, m < k → k < n → activationSuccessAt o k = none := by
  induction n with
  | zero => simp [farmsAt, run] at hf
  | succ n ih =>
    cases hr : run o n with
    | activating =>
      cases ha : attempt_start_node (o n).1 with
      | none =>
        have h1 : run o (n + 1) = .activating := by
          simp [run, step, hr, ha]
        simp [farmsAt, h1] at hf
      | some j =>
        have h1 : run o (n + 1) = .farming j := by
          simp [run, step, hr, ha]
        have hj : j = h := by
          simp [farmsAt, h1] at hf
          exact hf
        refine ⟨n, Nat.lt_succ_self n, ?_, ?_⟩
        · simp [activationSuccessAt, hr, ha, hj]
        · intro k hk1 hk2
          omega
    | farming h2 =>
      by_cases hd : do_farm_once (o n).2 = true
      · have h1 : run o (n + 1) = .farming h2 := by
          simp [run, step, hr, hd]
        have hh : h2 = h := by
          simp [farmsAt, h1] at hf
          exact hf
        obtain ⟨m, hm1, hm2, hm3⟩ := ih (by simp [farmsAt, hr, hh])
        refine ⟨m, Nat.lt_succ_of_lt hm1, hm2, ?_⟩
        intro k hk1 hk2
        rcases Nat.lt_succ_iff_lt_or_eq.mp hk2 with hlt | heq
        · exact hm3 k hk1 hlt
        · subst heq
          simp [activationSuccessAt, hr]
      · have h1 : run o (n + 1) = .activating := by
          simp [run, step, hr, hd]
        simp [farmsAt, h1] at hf

/-- C1 witness: with the all-good oracle, step 1 farms with handle `7`,
activated at step 0. -/
theorem farm_uses_latest_activation_witness :
    ∃ m, m < 1 ∧ activationSuccessAt oAllGood m = some (.num 7) ∧
      ∀ k, m < k → k < 1 → activationSuccessAt oAllGood k = none :=
  farm_uses_latest_activation oAllGood 1 (.num 7) rfl

/-- C3: when the worker is farming and the liveness report fails for any
of the four reasons — transport exception, non-200 status, unparseable
body, or a non-truthy `success` field — all of them make `do_farm_once`
return `False` identically; the step emits only the failed report with no
sleep, the worker is activating at the next step, and the next step begins
with a fresh activation attempt. -/
theorem farm_failure_reactivates_immediately (o : Oracle) (n : Nat) (h : Json)
    (hstate : run o n = .farming h)
    (hfail : (o n).2 = .exn ∨
      (∃ s b, (o n).2 = .ok s b ∧ s ≠ 200) ∨
      (∃ s, (o n).2 = .ok s none) ∨
      (∃ s d, (o n).2 = .ok s (some d) ∧
        truthyOpt (d.get "success") = false)) :
    do_farm_once (o n).2 = false ∧
    events o n = [.farm h false] ∧
    run o (n + 1) = .activating ∧
    (events o (n + 1)).head? =
      some (.activate (attempt_start_node (o (n + 1)).1)) := by
  have hff : do_farm_once (o n).2 = false := by
    rcases hfail with he | ⟨s, b, he, hs⟩ | ⟨s, he⟩ | ⟨s, d, he, hd⟩ <;>
      rw [he]
    · rfl
    · cases b <;> simp [do_farm_once, hs]
    · simp [do_farm_once]
    · simp [do_farm_once, hd]
  have h1 : run o (n + 1) = .activating := by
    simp [run, step, hstate, hff]
  refine ⟨hff, by simp [events, step, hstate, hff], h1, ?_⟩
  cases ha : attempt_start_node (o (n + 1)).1 <;>
    simp [events, step, h1, ha]

/-- C3 witness: with the farm-rejecting oracle, the report at step 1 is
rejected (`success = false`), the step has no sleep, and step 2 is a
fresh activation attempt. -/
theorem farm_failure_reactivates_immediately_witness :
    do_farm_once (oFarmFail 1).2 = false ∧
    events oFarmFail 1 = [.farm (.num 7) false] ∧
    run oFarmFail 2 = .activating ∧
    (events oFarmFail 2).head? =
      some (.activate (attempt_start_node (oFarmFail 2).1)) :=
  farm_failure_reactivates_immediately oFarmFail 1 (.num 7) rfl
    (Or.inr (Or.inr (Or.inr ⟨200, .obj [("success", .bool false)], rfl, rfl⟩)))

/-- C4 counterexample: with activation succeeding and the first report
rejected, the farming step at time 1 emits the failed report and no sleep
at all — its events contain no sleep event and the very next step is
already a fresh activation attempt. This refutes the claim that the worker
sleeps the poll interval after every report regardless of outcome. -/
theorem farm_failure_skips_sleep_cex :
    run oFarmFail 1 = .farming (.num 7) ∧
    events oFarmFail 1 = [.farm (.num 7) false] ∧
    (events oFarmFail 1).all (fun e => !e.isSleep) = true ∧
    events oFarmFail 2 = [.activate (some (.num 7))] :=
  ⟨rfl, rfl, rfl, rfl⟩

/-- C4 (amended): after a successful liveness report the worker sleeps the
fixed poll interval before its next action; after a failed report it emits
no sleep at all and proceeds immediately. -/
theorem farm_sleep_only_after_success (o : Oracle) (n : Nat) (h : Json)
    (hstate : run o n = .farming h) :
    (do_farm_once (o n).2 = true →
       events o n = [.farm h true, .sleep POLL_INTERVAL]) ∧
    (do_farm_once (o n).2 = false → events o n = [.farm h false]) := by
  constructor <;> intro hd <;> simp [events, step, hstate, hd]

/-- C4 (amended) witness: with the all-good oracle the report at step 1
succeeds and is followed by the poll-interval sleep. -/
theorem farm_sleep_only_after_success_witness :
    events oAllGood 1 = [.farm (.num 7) true, .sleep POLL_INTERVAL] :=
  (farm_sleep_only_after_success oAllGood 1 (.num 7) rfl).1 rfl

/-- C5: when the activation at step `m` succeeds with value `t0` and the
next `N` liveness reports all succeed, the worker is farming with the very
same `t0` throughout those `N` iterations, each of those steps sends a
report carrying `t0` followed by the fixed sleep, and the farming request
payload built from `t0` carries `lastStartTime = t0` unchanged. -/
theorem farming_keeps_handle (o : Oracle) (m N : Nat) (t0 : Json)
    (hact : run o m = .activating)
    (hok : attempt_start_node (o m).1 = some t0)
    (hfarm : ∀ i, i < N → do_farm_once (o (m + 1 + i)).2 = true) :
    (∀ i, i ≤ N → run o (m + 1 + i) = .farming t0) ∧
    (∀ i, i < N →
       events o (m + 1 + i) = [.farm t0 true, .sleep POLL_INTERVAL]) ∧
    farm_payload t0 = .obj [("walletAddress", .str WALLET_ADDRESS),
                            ("lastStartTime", t0)] := by
  have hrun : ∀ i, i ≤ N → run o (m + 1 + i) = .farming t0 := by
    intro i
    induction i with
    | zero =>
      intro _
      show run o (m + 1) = .farming t0
      simp [run, step, hact, hok]
    | succ i ih =>
      intro hle
      have hi : i < N := Nat.lt_of_succ_le hle
      have hprev := ih (Nat.le_of_lt hi)
      show run o ((m + 1 + i) + 1) = .farming t0
      simp [run, step, hprev, hfarm i hi]
  refine ⟨hrun, ?_, rfl⟩
  intro i hi
  simp [events, step, hrun i (Nat.le_of_lt hi), hfarm i hi]

/-- C5 witness: with the all-good oracle and `m = 0`, `N = 2`, the worker
farms with handle `7` at steps 1, 2 and 3, and both reports carry `7`. -/
theorem farming_keeps_handle_witness :
    (∀ i, i ≤ 2 → run oAllGood (0 + 1 + i) = .farming (.num 7)) ∧
    (∀ i, i < 2 →
       events oAllGood (0 + 1 + i) =
         [.farm (.num 7) true, .sleep POLL_INTERVAL]) ∧
    farm_payload (.num 7) =
      .obj [("walletAddress", .str WALLET_ADDRESS),
            ("lastStartTime", .num 7)] :=
  farming_keeps_handle oAllGood 0 2 (.num 7) rfl rfl (fun _ _ => rfl)

/-- C6 counterexample: an activation response that is 200, parseable, has
a truthy `success` and a string-valued `lastStartTime` is not rejected:
`attempt_start_node` returns the string, and the worker enters farming
with the string as its session handle. This refutes the claim that a
non-timestamp `lastStartTime` yields an activation failure. -/
theorem nontimestamp_handle_accepted_cex :
    attempt_start_node stringStart = some (.str "oops") ∧
    attempt_start_node stringStart ≠ none ∧
    run oStringStart 1 = .farming (.str "oops") ∧
    events oStringStart 1 =
      [.farm (.str "oops") true, .sleep POLL_INTERVAL] := by
  refine ⟨rfl, ?_, rfl, rfl⟩
  intro hx
  exact Option.noConfusion
    ((rfl : attempt_start_node stringStart = some (.str "oops")).symm.trans hx)

/-- C6 (amended): on a 200, parseable response with truthy `success`,
`attempt_start_node` returns the value of `data.get("lastStartTime")`
verbatim, with no validation of its type: any present non-null value of
whatever type becomes the session handle, and only an absent or null
field makes the attempt fail. -/
theorem activation_handle_unvalidated (sig : String) (d : Json)
    (hsucc : truthyOpt (d.get "success") = true) :
    attempt_start_node ⟨.ok sig, .ok 200 (some d)⟩ = d.get "lastStartTime" := by
  simp [attempt_start_node, hsucc]

/-- C6 (amended) witness: a boolean-valued `lastStartTime` is returned
as the handle. -/
theorem activation_handle_unvalidated_witness :
    attempt_start_node
      ⟨.ok "sig", .ok 200 (some (.obj [("success", .bool true),
                                       ("lastStartTime", .bool true)]))⟩ =
      some (.bool true) :=
  activation_handle_unvalidated "sig"
    (.obj [("success", .bool true), ("lastStartTime", .bool true)]) rfl

/-- Counting helper: filtering a mapped list keeps as many elements as
filtering the original list by the composed predicate. -/
theorem length_filter_of_map (f : String → String) (p : String → Bool)
    (ls : List String) :
    ((ls.map f).filter p).length = (ls.filter (fun l => p (f l))).length := by
  induction ls with
  | nil => rfl
  | cons a t ih =>
    by_cases hpa : p (f a) <;>
      simp [List.filter_cons, hpa, ih]

/-- C8: when the proxy list is empty — the file missing or unreadable
(`none`) or containing only blank lines — `main` spawns zero workers and
returns cleanly (`noProxies` is the plain early return of the source, not
an error path); otherwise it spawns exactly the stripped non-blank lines,
one worker per non-blank line of the file. -/
theorem orchestrator_spawn_policy (file : Option (List String)) :
    (read_proxies file = [] → main_run file = .noProxies) ∧
    (read_proxies file ≠ [] →
       main_run file = .spawned (read_proxies file) ∧
       ∃ ls, file = some ls ∧
         read_proxies file = (ls.map pyStrip).filter (fun l => l != "") ∧
         (read_proxies file).length =
           (ls.filter (fun l => pyStrip l != "")).length) := by
  constructor
  · intro he
    simp [main_run, he]
  · intro hne
    refine ⟨by simp [main_run, List.isEmpty_iff, hne], ?_⟩
    cases file with
    | none => simp [read_proxies] at hne
    | some ls =>
      exact ⟨ls, rfl, rfl, length_filter_of_map pyStrip (fun l => l != "") ls⟩

/-- C8 witness: a file with one blank line, two proxies and a
whitespace-only line spawns exactly two workers. -/
theorem orchestrator_spawn_policy_witness :
    main_run (some ["", " p1 ", "  ", "p2"]) =
      .spawned (read_proxies (some ["", " p1 ", "  ", "p2"])) ∧
    ∃ ls, (some ["", " p1 ", "  ", "p2"] : Option (List String)) = some ls ∧
      read_proxies (some ["", " p1 ", "  ", "p2"]) =
        (ls.map pyStrip).filter (fun l => l != "") ∧
      (read_proxies (some ["", " p1 ", "  ", "p2"])).length =
        (ls.filter (fun l => pyStrip l != "")).length :=
  (orchestrator_spawn_policy (some ["", " p1 ", "  ", "p2"])).2 (by decide)

/-- C9: an activation attempt sends its HTTP request only when the signing
step has already succeeded — a signing exception suppresses the request
entirely — and the payload of every request that is sent is exactly the
object holding the wallet address alone: it has no `signature` field, for
every possible signature the signer produced. -/
theorem activation_payload_wallet_only (env : StartEnv) :
    (env.signResult = .exn → start_request env = none) ∧
    (env.signResult ≠ .exn → start_request env = some start_payload) ∧
    (∀ p, start_request env = some p →
       p = .obj [("walletAddress", .str WALLET_ADDRESS)] ∧
       p.get "signature" = none) := by
  refine ⟨fun he => (sign_exn_aborts_attempt env he).2, ?_, ?_⟩
  · intro hne
    cases hsr : env.signResult with
    | ok s => simp [start_request, hsr]
    | exn => exact absurd hsr hne
  · intro p hp
    cases hsr : env.signResult with
    | ok s =>
      rw [start_request, hsr] at hp
      cases hp
      exact ⟨rfl, rfl⟩
    | exn =>
      rw [start_request, hsr] at hp
      cases hp

/-- C9 witness: with a failed signing step no request is sent; with a
successful signing step the request is the wallet-only payload. -/
theorem activation_payload_wallet_only_witness :
    start_request ⟨.exn, .exn⟩ = none ∧
    start_request ⟨.ok "sig", .exn⟩ = some start_payload :=
  ⟨(activation_payload_wallet_only ⟨.exn, .exn⟩).1 rfl,
   (activation_payload_wallet_only ⟨.ok "sig", .exn⟩).2.1 (by simp)⟩

/-- C10: for a parseable 200 body, both operations read the `success`
field through Python truthiness: an absent field, a field holding JSON
null (which parses to Python `None`), and every falsy value — `false`,
`0`, the empty string — fail exactly as an explicit `success = false`
does, while any truthy value passes the check, making `do_farm_once`
return `True` and letting `attempt_start_node` proceed to return the
`lastStartTime` field. -/
theorem falsy_success_is_failure (sig : String) (d : Json) :
    (truthyOpt (d.get "success") = false →
       do_farm_once (.ok 200 (some d)) = false ∧
       attempt_start_node ⟨.ok sig, .ok 200 (some d)⟩ = none) ∧
    (truthyOpt (d.get "success") = true →
       do_farm_once (.ok 200 (some d)) = true ∧
       attempt_start_node ⟨.ok sig, .ok 200 (some d)⟩ =
         d.get "lastStartTime") ∧
    truthyOpt none = false ∧
    Json.truthy (.bool false) = false ∧
    Json.truthy (.num 0) = false ∧
    Json.truthy (.str "") = false ∧
    (Json.obj [("success", .null)]).get "success" = none ∧
    (Json.obj []).get "success" = none := by
  refine ⟨?_, ?_, rfl, rfl, rfl, rfl, rfl, rfl⟩
  · intro hfalse
    constructor <;> simp [do_farm_once, attempt_start_node, hfalse]
  · intro htrue
    constructor <;> simp [do_farm_once, attempt_start_node, htrue]

/-- C10 witness: a body with `success = 0` fails the farming request
exactly as `success = false` would. -/
theorem falsy_success_is_failure_witness :
    do_farm_once (.ok 200 (some (.obj [("success", .num 0)]))) = false ∧
    attempt_start_node
      ⟨.ok "sig", .ok 200 (some (.obj [("success", .num 0)]))⟩ = none :=
  (falsy_success_is_failure "sig" (.obj [("success", .num 0)])).1 rfl

end LayerEdge
